import Mathlib

/-!
Shallow embedding of the network diagnostics module of the `acovo` crate
(`src/net.rs`): route records, the route-table parsers of the Linux and
macOS backends, the gateway classifier `RouteTable::Parse`, the route
finder `RouteTable::FindRoute`, and the ping diagnostic
`ping_internal`.  Rust `String`s are Lean `String`s, `u8` counters are
`Nat` kept below 256 by the wrapping increment `(n + 1) % 256`
(release-mode `u8` addition), `f32` durations are exact rationals
produced by a model of the decimal fragment of `str::parse::<f32>`,
and external command output is an explicit environment value.
-/

/-- Structure `NetRoute` (src/net.rs lines 26-32): one parsed route record. -/
structure NetRoute where
  Dest : String
  Dev : String
  Gateway : String
  Src : String
  State : String
deriving DecidableEq

/-- Method `NetRoute::subnet_contains` (src/net.rs lines 36-39): an
unimplemented stub, returns `false` for every record and address. -/
def NetRoute.subnet_contains (_route : NetRoute) (_ip : String) : Bool :=
  false

/-- Structure `GatewayInfo` (src/net.rs lines 44-50).  The three `u8` counters are
`Nat`s kept below 256 by the wrapping increment used in `Parse`. -/
structure GatewayInfo where
  bHasGateway : Bool
  nGatewayCount : Nat
  bHasDefaultGateway : Bool
  nDefaultGatewayCount : Nat
  nLinkUp : Nat
deriving DecidableEq

/-- Value of `GatewayInfo::default()`: all flags false, all counters zero. -/
def GatewayInfo.init : GatewayInfo :=
  { bHasGateway := false, nGatewayCount := 0, bHasDefaultGateway := false
    nDefaultGatewayCount := 0, nLinkUp := 0 }

/-- Structure `RouteTable` (src/net.rs lines 54-56): ordered list of records. -/
structure RouteTable where
  data : List NetRoute
deriving DecidableEq

/-- Split a character list at every character satisfying `p`, keeping
empty pieces, as Rust `str::split` does ("a  b" gives "a", "", "b";
"" gives one empty piece). -/
def splitPred (p : Char → Bool) : List Char → List (List Char)
  | [] => [[]]
  | x :: xs =>
    let rest := splitPred p xs
    if p x then [] :: rest
    else
      match rest with
      | [] => [[x]]
      | r :: rs => (x :: r) :: rs

/-- Rust `str::split` with a single-character separator (the only kind
`net.rs` uses: `"\n"`, `" "`, `"="`), keeping empty pieces. -/
def strSplitChar (s : String) (c : Char) : List String :=
  (splitPred (fun x => x = c) s.data).map String.mk

/-- Whether `pat` occurs as a contiguous run inside `s`. -/
def listContainsSub (pat : List Char) : List Char → Bool
  | [] => pat.isPrefixOf []
  | c :: t => pat.isPrefixOf (c :: t) || listContainsSub pat t

/-- Rust `str::contains` (substring containment), over the characters of
the strings (coincides with byte-level containment on UTF-8 text). -/
def strContains (s pat : String) : Bool :=
  listContainsSub pat.data s.data

/-- Rust `str::starts_with`. -/
def strStartsWith (s pat : String) : Bool :=
  pat.data.isPrefixOf s.data

/-- The body of the `for route in &self.data` loop of
`RouteTable::Parse` (src/net.rs lines 72-86), updating the accumulated
`GatewayInfo` with one record.  `u8` increments wrap modulo 256. -/
def parseStep (g : GatewayInfo) (route : NetRoute) : GatewayInfo :=
  let g1 := if route.State ≠ "linkdown" then
    { g with nLinkUp := (g.nLinkUp + 1) % 256 } else g
  if route.Gateway ≠ "" then
    let g2 := { g1 with bHasGateway := true,
                        nGatewayCount := (g1.nGatewayCount + 1) % 256 }
    if strContains route.Dest "0.0.0.0" || route.Dest = "default" then
      { g2 with bHasDefaultGateway := true,
                nDefaultGatewayCount := (g2.nDefaultGatewayCount + 1) % 256 }
    else g2
  else g1

/-- Method `RouteTable::Parse` (src/net.rs lines 61-90): classify the table
into a `GatewayInfo`.  The `data.len() == 0` branch of the source
re-assigns fields that already hold their default values; it is kept. -/
def RouteTable.Parse (t : RouteTable) : GatewayInfo :=
  let gatewayInfo := GatewayInfo.init
  let gatewayInfo := if t.data.length = 0 then
    { gatewayInfo with nLinkUp := 0, bHasGateway := false,
                       nDefaultGatewayCount := 0 }
    else gatewayInfo
  t.data.foldl parseStep gatewayInfo

/-- Method `RouteTable::FindRoute` (src/net.rs lines 93-117).  The two Rust
`for` loops with early `return` are the two `List.find?` passes: first
the custom-route pass (destination not a default route and
`subnet_contains` holds), then the default-route pass.  The local
`bHasGateway` flag of the source is dead (only assigned on paths that
return immediately), so the second pass is unconditional, as in the
source where the guard `!bHasGateway` is always true when reached. -/
def RouteTable.FindRoute (t : RouteTable) (ip : String) : Option NetRoute :=
  match t.data.find? (fun route =>
      (route.Dest ≠ "0.0.0.0/0" && route.Dest ≠ "default") &&
        route.subnet_contains ip) with
  | some route => some route
  | none =>
    t.data.find? (fun route =>
      route.Dest = "0.0.0.0/0" || route.Dest = "default")

/-- One step of the flag-scanning loop `for mut pos in 0..items.len()`
of `LinuxNetwork::get_route_table` (src/net.rs lines 601-616).  The
`pos += 1` of the source has no effect on a Rust range loop, so every
position is visited.  Out-of-range lookups yield `""` as
`items.get(..).unwrap_or(&"")` does. -/
def flagStep (items : List String) (route : NetRoute) (pos : Nat) : NetRoute :=
  let flag := items.getD pos ""
  if flag = "dev" then { route with Dev := items.getD (pos + 1) "" }
  else if flag = "src" then { route with Src := items.getD (pos + 1) "" }
  else if flag = "linkdown" then { route with State := flag }
  else if flag = "via" then { route with Gateway := items.getD (pos + 1) "" }
  else route

/-- One line of `LinuxNetwork::get_route_table` (src/net.rs lines
586-629): split on single spaces, require more than 4 tokens, drop
`local`/`multicast`/`broadcast` destinations, scan flag/value pairs,
re-read `dev` at position 1, drop `dummy*` devices.  `none` models
`continue` (line contributes no record). -/
def linuxParseLine (line : String) : Option NetRoute :=
  let items := strSplitChar line ' '
  if items.length > 4 then
    let dst := items.getD 0 ""
    if dst = "local" ∨ dst = "multicast" ∨ dst = "broadcast" then none
    else
      let route0 : NetRoute :=
        { Dest := dst, Dev := "", Gateway := "", Src := "", State := "" }
      let route1 := (List.range items.length).foldl (flagStep items) route0
      let dev_flag := items.getD 1 ""
      let route2 := if dev_flag = "dev" then
        { route1 with Dev := items.getD 2 "" } else route1
      if strStartsWith route2.Dev "dummy" then none else some route2
  else none

/-- Function `LinuxNetwork::get_route_table` (src/net.rs lines 572-639), as a
function of the captured stdout of `/bin/ip route list table 0`:
split into lines and collect the records the per-line parser keeps. -/
def LinuxNetwork.get_route_table (sOutput : String) : RouteTable :=
  ⟨(strSplitChar sOutput '\n').filterMap linuxParseLine⟩

/-- Rust `str::split_whitespace`: split on runs of whitespace, no empty
tokens (ASCII whitespace; the inputs of the claims are ASCII). -/
def splitWhitespace (s : String) : List String :=
  ((splitPred Char.isWhitespace s.data).map String.mk).filter
    (fun part => part ≠ "")

/-- One line of `MacOSNetwork::get_route_table` (src/net.rs lines
326-354): split on whitespace, require at least 4 tokens, skip header
lines (`Destination`, containing `Internet`, or empty destination),
record destination/gateway/device, mark `linkdown` when the flags
column contains `D`.  No destination or device filtering is done. -/
def macosParseLine (line : String) : Option NetRoute :=
  let items := splitWhitespace line
  if items.length ≥ 4 then
    let dst := items.getD 0 ""
    let gateway := items.getD 1 ""
    let flags := items.getD 2 ""
    let iface := items.getD 3 ""
    if dst = "Destination" ∨ strContains dst "Internet" = true ∨ dst = "" then
      none
    else
      some { Dest := dst, Dev := iface, Gateway := gateway, Src := "",
             State := if strContains flags "D" then "linkdown" else "" }
  else none

/-- Function `MacOSNetwork::get_route_table` (src/net.rs lines 312-363), as a
function of the captured stdout of `/usr/sbin/netstat -rn`. -/
def MacOSNetwork.get_route_table (sOutput : String) : RouteTable :=
  ⟨(strSplitChar sOutput '\n').filterMap macosParseLine⟩

/-- Value of a list of decimal digit characters. -/
def natOfDigits (cs : List Char) : Nat :=
  cs.foldl (fun n c => n * 10 + (c.toNat - '0'.toNat)) 0

/-- Modelled from Rust std: the decimal fragment of
`str::parse::<f32>` — optional sign, decimal digits with at most one
point, at least one digit; the value is the exact rational (no f32
rounding; the claims settled here never depend on rounding, only on
parse success/failure and on small exactly representable values).
Exponent and `inf`/`NaN` forms, which `ping` output never produces,
are rejected. -/
def rustParseF32 (s : String) : Option ℚ :=
  let cs := s.data
  let neg : Bool := match cs with
    | '-' :: _ => true
    | _ => false
  let rest := match cs with
    | '-' :: t => t
    | '+' :: t => t
    | _ => cs
  let intPart := rest.takeWhile (fun c => c ≠ '.')
  let dotPart := rest.dropWhile (fun c => c ≠ '.')
  match dotPart with
  | [] =>
    if intPart ≠ [] ∧ intPart.all Char.isDigit then
      let mant : Int := natOfDigits intPart
      some (mkRat (if neg then -mant else mant) 1)
    else none
  | _ :: frac =>
    if (intPart ≠ [] ∨ frac ≠ []) ∧ intPart.all Char.isDigit ∧
        frac.all Char.isDigit then
      let mant : Int := natOfDigits intPart * 10 ^ frac.length +
        natOfDigits frac
      some (mkRat (if neg then -mant else mant) (10 ^ frac.length))
    else none

/-- The duration extraction of the Linux success branch
(src/net.rs lines 500-506): second line of stdout, fourth
`=`-separated field, first space-separated token.  Missing pieces
default to `""` as the `unwrap_or(&"")` chain does. -/
def linuxTimeField (sOutput : String) : String :=
  let resultLines := strSplitChar sOutput '\n'
  let response := strSplitChar (resultLines.getD 1 "") '='
  let response_time := response.getD 3 ""
  let response_list := strSplitChar response_time ' '
  response_list.getD 0 ""

/-- Index of the first occurrence of `pat` in `s` (Rust `str::find`);
`none` when `pat` does not occur. -/
def findSubPos (pat : List Char) : List Char → Option Nat
  | [] => if pat.isPrefixOf [] then some 0 else none
  | c :: t =>
    if pat.isPrefixOf (c :: t) then some 0
    else (findSubPos pat t).map (fun n => n + 1)

/-- The duration scan of the macOS success branch (src/net.rs lines
238-251): first line containing both `"bytes from"` and `"time="`
whose tail after `"time="` contains `"ms"`; the text between them is
parsed, an unparsable value defaulting to `0.0` (`unwrap_or(0.0)`).
A line with `"time="` but no `"ms"` does not stop the scan (the
`break` sits inside the `if let Some(ms_pos)`).  `none` models the
loop ending with `duration` still at its default. -/
def macosFindTime : List String → Option ℚ
  | [] => none
  | line :: rest =>
    if strContains line "bytes from" && strContains line "time=" then
      match findSubPos "time=".data line.data with
      | some p =>
        let timeStr := line.data.drop (p + 5)
        match findSubPos "ms".data timeStr with
        | some m => some ((rustParseF32 (String.mk (timeStr.take m))).getD 0)
        | none => macosFindTime rest
      | none => macosFindTime rest
    else macosFindTime rest

/-- Outcome of one `ping_internal` call: `ok d` is
`Ok(PingResult { duration: d })`, `fail msg` is `Err(anyhow!(msg))`,
and `panic` models a Rust panic (`unwrap` on a failed parse). -/
inductive PingOutcome where
  | ok (duration : ℚ)
  | fail (msg : String)
  | panic
deriving DecidableEq

/-- The outside world as `ping_internal` observes it: the captured
stdout and stderr of the ping command per target host, and the stdout
of the route-listing command read by `get_route_table` during
diagnosis.  Commands are assumed to spawn and to produce UTF-8 output
(the `Err(e)` spawn arm and `from_utf8` failures are outside the
claims settled here). -/
structure NetEnv where
  pingStdout : String → String
  pingStderr : String → String
  routeText : String

/-- The body of `LinuxNetwork::ping_internal` (src/net.rs lines
489-567).  `diagProbe = some probe` is `diag == true` with `probe` the
nested `ping_internal(gateway, false)` call; `none` is `diag == false`
(the recursion stops at depth one because the nested call passes
`false`).  A nested success falls through to the trailing
`Ok(result)` with `result` still `PingResult::default()`, hence
`ok 0`. -/
def pingStepL (env : NetEnv) (host : String)
    (diagProbe : Option (String → PingOutcome)) : PingOutcome :=
  let sOutput := env.pingStdout host
  let sError := env.pingStderr host
  if strContains sOutput "icmp_seq=" then
    match rustParseF32 (linuxTimeField sOutput) with
    | some v => PingOutcome.ok v
    | none => PingOutcome.panic
  else
    if sError = "" then
      match diagProbe with
      | some probe =>
        let route_table := LinuxNetwork.get_route_table env.routeText
        let routeInfo := route_table.Parse
        if routeInfo.nLinkUp = 0 then PingOutcome.fail "NoLinkUp"
        else if routeInfo.nGatewayCount = 0 then PingOutcome.fail "NoGateway"
        else
          match route_table.FindRoute host with
          | none => PingOutcome.fail "NoRoute"
          | some route =>
            match probe route.Gateway with
            | PingOutcome.ok _ => PingOutcome.ok 0
            | PingOutcome.fail _ => PingOutcome.fail "GatewayNotReachable"
            | PingOutcome.panic => PingOutcome.panic
      | none => PingOutcome.fail "NoErrData"
    else
      PingOutcome.fail (if strContains sError "ping: unknown host" then
        "ping: unknown host" else sError)

/-- Function `LinuxNetwork::ping_internal(host, diag)`: ties the one level of
recursion (the gateway probe runs with `diag == false`). -/
def LinuxNetwork.ping_internal (env : NetEnv) (host : String)
    (diag : Bool) : PingOutcome :=
  if diag then pingStepL env host (some (fun gw => pingStepL env gw none))
  else pingStepL env host none

/-- The body of `MacOSNetwork::ping_internal` (src/net.rs lines
226-307): the success gate is also `icmp_seq=`, the duration comes
from the per-line `time=` scan (default `0.0`), stderr is propagated
unmodified, and the diagnosis cascade is the same as on Linux but
over the macOS route table. -/
def pingStepM (env : NetEnv) (host : String)
    (diagProbe : Option (String → PingOutcome)) : PingOutcome :=
  let sOutput := env.pingStdout host
  let sError := env.pingStderr host
  if strContains sOutput "icmp_seq=" then
    PingOutcome.ok ((macosFindTime (strSplitChar sOutput '\n')).getD 0)
  else
    if sError = "" then
      match diagProbe with
      | some probe =>
        let route_table := MacOSNetwork.get_route_table env.routeText
        let routeInfo := route_table.Parse
        if routeInfo.nLinkUp = 0 then PingOutcome.fail "NoLinkUp"
        else if routeInfo.nGatewayCount = 0 then PingOutcome.fail "NoGateway"
        else
          match route_table.FindRoute host with
          | none => PingOutcome.fail "NoRoute"
          | some route =>
            match probe route.Gateway with
            | PingOutcome.ok _ => PingOutcome.ok 0
            | PingOutcome.fail _ => PingOutcome.fail "GatewayNotReachable"
            | PingOutcome.panic => PingOutcome.panic
      | none => PingOutcome.fail "NoErrData"
    else PingOutcome.fail sError

/-- Function `MacOSNetwork::ping_internal(host, diag)`. -/
def MacOSNetwork.ping_internal (env : NetEnv) (host : String)
    (diag : Bool) : PingOutcome :=
  if diag then pingStepM env host (some (fun gw => pingStepM env gw none))
  else pingStepM env host none

/-- Number of records counted by the `nLinkUp` increment. -/
def countLinkUp (l : List NetRoute) : Nat :=
  l.countP (fun route => route.State ≠ "linkdown")

/-- Number of records counted by the `nGatewayCount` increment. -/
def countGw (l : List NetRoute) : Nat :=
  l.countP (fun route => route.Gateway ≠ "")

/-- Number of records counted by the `nDefaultGatewayCount`
increment. -/
def countDefGw (l : List NetRoute) : Nat :=
  l.countP (fun route =>
    route.Gateway ≠ "" &&
      (strContains route.Dest "0.0.0.0" || route.Dest = "default"))

/-- The single-default-route scenario input of the spec (§8). -/
def c7Text : String := "default via 192.168.1.1 dev eth0 proto static"

/-- The two-line scenario input of the spec (§8): the default route
followed by a linkdown route line of four tokens. -/
def c3Text : String :=
  "default via 192.168.1.1 dev eth0 proto static\n10.0.0.0/24 dev eth1 linkdown"

/-- A syntactically valid `netstat -rn` style line whose destination
column is the literal `local`. -/
def c5Text : String := "local 192.168.1.1 UGSc en0"

/-- A syntactically valid `netstat -rn` style line whose interface
column starts with `dummy`. -/
def c6Text : String := "default 192.168.1.1 UGSc dummy0"

/-- A table of 300 up links: more than 255 records qualify for the
`nLinkUp` increment. -/
def overflowTable : RouteTable :=
  ⟨List.replicate 300
    { Dest := "", Dev := "eth0", Gateway := "", Src := "", State := "" }⟩

/-- Environment with no ping output at all and an empty route table:
every diagnosis starts at `nLinkUp == 0`. -/
def diagEnvNoLink : NetEnv := ⟨fun _ => "", fun _ => "", ""⟩

/-- Environment where pinging the target produces nothing, the route
table holds one default route via 192.168.1.1, and pinging that
gateway succeeds with a well-formed reply. -/
def gwOkEnv : NetEnv :=
  ⟨fun h => if h = "192.168.1.1" then
      "PING\n64 bytes from 192.168.1.1: icmp_seq=1 ttl=64 time=7 ms"
    else "",
   fun _ => "",
   "default via 192.168.1.1 dev eth0 proto static"⟩

/-- Environment whose ping stdout is the bare text `icmp_seq=`: the
success gate matches but the second line, and with it the extracted
time field, is empty. -/
def panicEnv : NetEnv := ⟨fun _ => "icmp_seq=", fun _ => "", ""⟩

/-- Environment with a well-formed Linux ping reply on every host. -/
def okEnv : NetEnv :=
  ⟨fun _ => "PING\n64 bytes from 8.8.8.8: icmp_seq=1 ttl=64 time=7 ms",
   fun _ => "", ""⟩

/-- Environment whose ping emits nothing on stdout and an
unknown-host message with a trailing host name on stderr. -/
def unknownHostEnv : NetEnv :=
  ⟨fun _ => "", fun _ => "ping: unknown host foo.bar", ""⟩

lemma parseStep_nLinkUp (g : GatewayInfo) (route : NetRoute) :
    (parseStep g route).nLinkUp =
      if route.State ≠ "linkdown" then (g.nLinkUp + 1) % 256
      else g.nLinkUp := by
  by_cases h1 : route.State = "linkdown" <;>
    by_cases h2 : route.Gateway = "" <;>
      simp [parseStep, h1, h2] <;> split <;> rfl

lemma parseStep_nGatewayCount (g : GatewayInfo) (route : NetRoute) :
    (parseStep g route).nGatewayCount =
      if route.Gateway ≠ "" then (g.nGatewayCount + 1) % 256
      else g.nGatewayCount := by
  by_cases h1 : route.State = "linkdown" <;>
    by_cases h2 : route.Gateway = "" <;>
      simp [parseStep, h1, h2] <;> split <;> rfl

lemma parseStep_nDefaultGatewayCount (g : GatewayInfo) (route : NetRoute) :
    (parseStep g route).nDefaultGatewayCount =
      if (route.Gateway ≠ "" &&
            (strContains route.Dest "0.0.0.0" || route.Dest = "default")) = true
      then (g.nDefaultGatewayCount + 1) % 256
      else g.nDefaultGatewayCount := by
  by_cases h1 : route.State = "linkdown" <;>
    by_cases h2 : route.Gateway = "" <;>
      by_cases h3 : (strContains route.Dest "0.0.0.0" ||
        route.Dest = "default") = true <;>
        simp [parseStep, h1, h2, h3]

lemma foldl_parseStep_nLinkUp (l : List NetRoute) (g : GatewayInfo)
    (h : g.nLinkUp < 256) :
    (l.foldl parseStep g).nLinkUp = (g.nLinkUp + countLinkUp l) % 256 := by
  induction l generalizing g with
  | nil => simpa [countLinkUp] using (Nat.mod_eq_of_lt h).symm
  | cons route t ih =>
    have hstep : (parseStep g route).nLinkUp < 256 := by
      rw [parseStep_nLinkUp]; split
      · exact Nat.mod_lt _ (by omega)
      · exact h
    rw [List.foldl_cons, ih _ hstep, parseStep_nLinkUp]
    simp only [countLinkUp, List.countP_cons]
    by_cases hr : route.State = "linkdown" <;> simp [hr] <;> omega

lemma foldl_parseStep_nGatewayCount (l : List NetRoute) (g : GatewayInfo)
    (h : g.nGatewayCount < 256) :
    (l.foldl parseStep g).nGatewayCount =
      (g.nGatewayCount + countGw l) % 256 := by
  induction l generalizing g with
  | nil => simpa [countGw] using (Nat.mod_eq_of_lt h).symm
  | cons route t ih =>
    have hstep : (parseStep g route).nGatewayCount < 256 := by
      rw [parseStep_nGatewayCount]; split
      · exact Nat.mod_lt _ (by omega)
      · exact h
    rw [List.foldl_cons, ih _ hstep, parseStep_nGatewayCount]
    simp only [countGw, List.countP_cons]
    by_cases hr : route.Gateway = "" <;> simp [hr] <;> omega

lemma foldl_parseStep_nDefaultGatewayCount (l : List NetRoute)
    (g : GatewayInfo) (h : g.nDefaultGatewayCount < 256) :
    (l.foldl parseStep g).nDefaultGatewayCount =
      (g.nDefaultGatewayCount + countDefGw l) % 256 := by
  induction l generalizing g with
  | nil => simpa [countDefGw] using (Nat.mod_eq_of_lt h).symm
  | cons route t ih =>
    have hstep : (parseStep g route).nDefaultGatewayCount < 256 := by
      rw [parseStep_nDefaultGatewayCount]; split
      · exact Nat.mod_lt _ (by omega)
      · exact h
    rw [List.foldl_cons, ih _ hstep, parseStep_nDefaultGatewayCount]
    simp only [countDefGw, List.countP_cons]
    by_cases hga : route.Gateway = "" <;>
      by_cases hc : strContains route.Dest "0.0.0.0" = true <;>
        by_cases hdef : route.Dest = "default" <;>
          simp [hga, hc, hdef] <;> omega

lemma Parse_eq_foldl (t : RouteTable) :
    t.Parse = t.data.foldl parseStep GatewayInfo.init := by
  unfold RouteTable.Parse
  split <;> rfl

lemma flagStep_Dest (items : List String) (route : NetRoute) (pos : Nat) :
    (flagStep items route pos).Dest = route.Dest := by
  simp only [flagStep]
  split <;> try rfl
  split <;> try rfl
  split <;> try rfl
  split <;> rfl

lemma foldl_flagStep_Dest (items : List String) (ps : List Nat)
    (route : NetRoute) :
    (ps.foldl (flagStep items) route).Dest = route.Dest := by
  induction ps generalizing route with
  | nil => rfl
  | cons p ps ih => rw [List.foldl_cons, ih, flagStep_Dest]

lemma linux_ping_diag_eq (env : NetEnv) (host : String)
    (hout : strContains (env.pingStdout host) "icmp_seq=" = false)
    (herr : env.pingStderr host = "") :
    LinuxNetwork.ping_internal env host true =
      (let route_table := LinuxNetwork.get_route_table env.routeText
       let routeInfo := route_table.Parse
       if routeInfo.nLinkUp = 0 then PingOutcome.fail "NoLinkUp"
       else if routeInfo.nGatewayCount = 0 then PingOutcome.fail "NoGateway"
       else
         match route_table.FindRoute host with
         | none => PingOutcome.fail "NoRoute"
         | some route =>
           match LinuxNetwork.ping_internal env route.Gateway false with
           | PingOutcome.ok _ => PingOutcome.ok 0
           | PingOutcome.fail _ => PingOutcome.fail "GatewayNotReachable"
           | PingOutcome.panic => PingOutcome.panic) := by
  simp only [LinuxNetwork.ping_internal, pingStepL, hout, herr]
  simp

lemma macos_ping_diag_eq (env : NetEnv) (host : String)
    (hout : strContains (env.pingStdout host) "icmp_seq=" = false)
    (herr : env.pingStderr host = "") :
    MacOSNetwork.ping_internal env host true =
      (let route_table := MacOSNetwork.get_route_table env.routeText
       let routeInfo := route_table.Parse
       if routeInfo.nLinkUp = 0 then PingOutcome.fail "NoLinkUp"
       else if routeInfo.nGatewayCount = 0 then PingOutcome.fail "NoGateway"
       else
         match route_table.FindRoute host with
         | none => PingOutcome.fail "NoRoute"
         | some route =>
           match MacOSNetwork.ping_internal env route.Gateway false with
           | PingOutcome.ok _ => PingOutcome.ok 0
           | PingOutcome.fail _ => PingOutcome.fail "GatewayNotReachable"
           | PingOutcome.panic => PingOutcome.panic) := by
  simp only [MacOSNetwork.ping_internal, pingStepM, hout, herr]
  simp

/-- C1: for every `RouteTable` and target IP string, `FindRoute`
returns the first record (in table order) whose destination is
`"0.0.0.0/0"` or `"default"`; since `subnet_contains` always returns
`false` no custom route is ever returned, and with no
default-destination record the result is `none`. -/
theorem FindRoute_eq_first_default (t : RouteTable) (ip : String) :
    t.FindRoute ip =
      t.data.find? (fun route =>
        route.Dest = "0.0.0.0/0" || route.Dest = "default") := by
  unfold RouteTable.FindRoute
  have h : t.data.find? (fun route =>
      (route.Dest ≠ "0.0.0.0/0" && route.Dest ≠ "default") &&
        route.subnet_contains ip) = none := by
    rw [List.find?_eq_none]
    intro x _
    simp [NetRoute.subnet_contains]
  rw [h]

/-- C7: the line `"default via 192.168.1.1 dev eth0 proto static"`
parses to one record with Dest `default`, Dev `eth0`, Gateway
`192.168.1.1`, and classifying the 1-record table yields
bHasGateway, bHasDefaultGateway, nGatewayCount = 1,
nDefaultGatewayCount = 1, nLinkUp = 1. -/
theorem single_default_route_scenario :
    (LinuxNetwork.get_route_table c7Text).data =
      [{ Dest := "default", Dev := "eth0", Gateway := "192.168.1.1",
         Src := "", State := "" }] ∧
    (LinuxNetwork.get_route_table c7Text).Parse =
      { bHasGateway := true, nGatewayCount := 1, bHasDefaultGateway := true,
        nDefaultGatewayCount := 1, nLinkUp := 1 } := by
  constructor <;> decide

/-- C3 counterexample: the claimed 2-record table is wrong — the line
`"10.0.0.0/24 dev eth1 linkdown"` has only 4 space-separated tokens,
fails the `items.len() > 4` minimum of the Linux parser and is
dropped, so only the default route survives. -/
theorem two_line_parse_counterexample :
    (LinuxNetwork.get_route_table c3Text).data.length = 1 ∧
    (LinuxNetwork.get_route_table c3Text).data.map NetRoute.Dest =
      ["default"] := by
  constructor <;> decide

/-- C3 amended: the two-line input parses to a 1-record table holding
only the default route (the 4-token linkdown line is below the
more-than-4-token minimum), and classifying it yields nLinkUp = 1. -/
theorem two_line_parse_amended :
    (LinuxNetwork.get_route_table c3Text).data =
      [{ Dest := "default", Dev := "eth0", Gateway := "192.168.1.1",
         Src := "", State := "" }] ∧
    ((LinuxNetwork.get_route_table c3Text).Parse).nLinkUp = 1 := by
  constructor <;> decide

/-- C5 counterexample: the macOS parser keeps a record whose
destination is the literal `local`, so the exclusion does not hold on
both platform parsers. -/
theorem macos_keeps_local_counterexample :
    (MacOSNetwork.get_route_table c5Text).data.map NetRoute.Dest =
      ["local"] := by
  decide

/-- C5 amended: on the Linux parser no record with destination
`local`, `multicast` or `broadcast` ever appears in the parsed table;
the macOS parser performs no such destination filtering. -/
theorem linux_excludes_special_dest (text : String) (route : NetRoute)
    (hmem : route ∈ (LinuxNetwork.get_route_table text).data) :
    route.Dest ≠ "local" ∧ route.Dest ≠ "multicast" ∧
      route.Dest ≠ "broadcast" := by
  obtain ⟨line, -, hline⟩ := List.mem_filterMap.mp hmem
  simp only [linuxParseLine] at hline
  split at hline
  · split at hline
    · simp at hline
    · rename_i hdst
      split at hline <;>
      · simp at hline
        obtain ⟨-, hr⟩ := hline
        subst hr
        simp only [foldl_flagStep_Dest]
        simp at hdst ⊢
        exact hdst
  · simp at hline

/-- C5 amended witness: the default-route line yields a member record
whose destination is none of the excluded names. -/
theorem linux_excludes_special_dest_witness :
    ({ Dest := "default", Dev := "eth0", Gateway := "192.168.1.1",
       Src := "", State := "" } : NetRoute) ∈
      (LinuxNetwork.get_route_table c7Text).data ∧
    ({ Dest := "default", Dev := "eth0", Gateway := "192.168.1.1",
       Src := "", State := "" } : NetRoute).Dest ≠ "local" :=
  ⟨by decide,
   (linux_excludes_special_dest c7Text _ (by decide)).1⟩

/-- C6 counterexample: the macOS parser keeps a record whose device
starts with `dummy`, so the exclusion does not hold on both platform
parsers. -/
theorem macos_keeps_dummy_counterexample :
    (MacOSNetwork.get_route_table c6Text).data.map NetRoute.Dev =
      ["dummy0"] := by
  decide

/-- C6 amended: on the Linux parser no record whose device name
starts with `dummy` ever appears in the parsed table; the macOS
parser performs no such device filtering. -/
theorem linux_excludes_dummy_dev (text : String) (route : NetRoute)
    (hmem : route ∈ (LinuxNetwork.get_route_table text).data) :
    strStartsWith route.Dev "dummy" = false := by
  obtain ⟨line, -, hline⟩ := List.mem_filterMap.mp hmem
  simp only [linuxParseLine] at hline
  split at hline
  · split at hline
    · simp at hline
    · split at hline <;>
      · simp at hline
        obtain ⟨hdum, hr⟩ := hline
        subst hr
        simpa using hdum
  · simp at hline

/-- C6 amended witness: the default-route line yields a member record
whose device does not start with `dummy`. -/
theorem linux_excludes_dummy_dev_witness :
    ({ Dest := "default", Dev := "eth0", Gateway := "192.168.1.1",
       Src := "", State := "" } : NetRoute) ∈
      (LinuxNetwork.get_route_table c7Text).data ∧
    strStartsWith
      ({ Dest := "default", Dev := "eth0", Gateway := "192.168.1.1",
         Src := "", State := "" } : NetRoute).Dev "dummy" = false :=
  ⟨by decide,
   linux_excludes_dummy_dev c7Text _ (by decide)⟩

/-- C10: the three `GatewayInfo` counters are u8 values updated by a
wrapping increment, so `Parse` returns each true qualifying-record
count modulo 256: exactly the true count when it is at most 255, and
a wrapped value different from the true count when more than 255
records qualify. -/
theorem parse_counts_mod256 (t : RouteTable) :
    t.Parse.nLinkUp = countLinkUp t.data % 256 ∧
    t.Parse.nGatewayCount = countGw t.data % 256 ∧
    t.Parse.nDefaultGatewayCount = countDefGw t.data % 256 ∧
    (countLinkUp t.data ≤ 255 → t.Parse.nLinkUp = countLinkUp t.data) ∧
    (countGw t.data ≤ 255 → t.Parse.nGatewayCount = countGw t.data) ∧
    (countDefGw t.data ≤ 255 →
      t.Parse.nDefaultGatewayCount = countDefGw t.data) ∧
    (255 < countLinkUp t.data → t.Parse.nLinkUp ≠ countLinkUp t.data) ∧
    (255 < countGw t.data → t.Parse.nGatewayCount ≠ countGw t.data) ∧
    (255 < countDefGw t.data →
      t.Parse.nDefaultGatewayCount ≠ countDefGw t.data) := by
  have h1 : t.Parse.nLinkUp = countLinkUp t.data % 256 := by
    rw [Parse_eq_foldl,
      foldl_parseStep_nLinkUp t.data GatewayInfo.init (by decide)]
    simp [GatewayInfo.init]
  have h2 : t.Parse.nGatewayCount = countGw t.data % 256 := by
    rw [Parse_eq_foldl,
      foldl_parseStep_nGatewayCount t.data GatewayInfo.init (by decide)]
    simp [GatewayInfo.init]
  have h3 : t.Parse.nDefaultGatewayCount = countDefGw t.data % 256 := by
    rw [Parse_eq_foldl,
      foldl_parseStep_nDefaultGatewayCount t.data GatewayInfo.init
        (by decide)]
    simp [GatewayInfo.init]
  exact ⟨h1, h2, h3,
    fun h => by rw [h1]; omega,
    fun h => by rw [h2]; omega,
    fun h => by rw [h3]; omega,
    fun h => by rw [h1]; omega,
    fun h => by rw [h2]; omega,
    fun h => by rw [h3]; omega⟩

set_option maxRecDepth 4000 in
/-- C10 witness: a table of 300 up links overflows the `nLinkUp`
counter, whose value then differs from the true count. -/
theorem parse_counts_mod256_witness :
    255 < countLinkUp overflowTable.data ∧
    overflowTable.Parse.nLinkUp ≠ countLinkUp overflowTable.data := by
  have h : 255 < countLinkUp overflowTable.data := by decide
  exact ⟨h, (parse_counts_mod256 overflowTable).2.2.2.2.2.2.1 h⟩

/-- C2: with stdout lacking the success token, empty stderr and
diagnostics enabled, the diagnosis checks run in this exact order on
both platforms: `nLinkUp == 0` gives `NoLinkUp`; else
`nGatewayCount == 0` gives `NoGateway`; else a failed `FindRoute`
gives `NoRoute`; else a failed nested probe of the found route's
gateway gives `GatewayNotReachable`; each outcome is the returned
error. -/
theorem ping_diag_order (env : NetEnv) (host : String)
    (hout : strContains (env.pingStdout host) "icmp_seq=" = false)
    (herr : env.pingStderr host = "") :
    (((LinuxNetwork.get_route_table env.routeText).Parse).nLinkUp = 0 →
      LinuxNetwork.ping_internal env host true =
        PingOutcome.fail "NoLinkUp") ∧
    (((LinuxNetwork.get_route_table env.routeText).Parse).nLinkUp ≠ 0 →
      ((LinuxNetwork.get_route_table env.routeText).Parse).nGatewayCount
          = 0 →
      LinuxNetwork.ping_internal env host true =
        PingOutcome.fail "NoGateway") ∧
    (((LinuxNetwork.get_route_table env.routeText).Parse).nLinkUp ≠ 0 →
      ((LinuxNetwork.get_route_table env.routeText).Parse).nGatewayCount
          ≠ 0 →
      (LinuxNetwork.get_route_table env.routeText).FindRoute host = none →
      LinuxNetwork.ping_internal env host true =
        PingOutcome.fail "NoRoute") ∧
    (∀ route e,
      ((LinuxNetwork.get_route_table env.routeText).Parse).nLinkUp ≠ 0 →
      ((LinuxNetwork.get_route_table env.routeText).Parse).nGatewayCount
          ≠ 0 →
      (LinuxNetwork.get_route_table env.routeText).FindRoute host =
        some route →
      LinuxNetwork.ping_internal env route.Gateway false =
        PingOutcome.fail e →
      LinuxNetwork.ping_internal env host true =
        PingOutcome.fail "GatewayNotReachable") ∧
    (((MacOSNetwork.get_route_table env.routeText).Parse).nLinkUp = 0 →
      MacOSNetwork.ping_internal env host true =
        PingOutcome.fail "NoLinkUp") ∧
    (((MacOSNetwork.get_route_table env.routeText).Parse).nLinkUp ≠ 0 →
      ((MacOSNetwork.get_route_table env.routeText).Parse).nGatewayCount
          = 0 →
      MacOSNetwork.ping_internal env host true =
        PingOutcome.fail "NoGateway") ∧
    (((MacOSNetwork.get_route_table env.routeText).Parse).nLinkUp ≠ 0 →
      ((MacOSNetwork.get_route_table env.routeText).Parse).nGatewayCount
          ≠ 0 →
      (MacOSNetwork.get_route_table env.routeText).FindRoute host = none →
      MacOSNetwork.ping_internal env host true =
        PingOutcome.fail "NoRoute") ∧
    (∀ route e,
      ((MacOSNetwork.get_route_table env.routeText).Parse).nLinkUp ≠ 0 →
      ((MacOSNetwork.get_route_table env.routeText).Parse).nGatewayCount
          ≠ 0 →
      (MacOSNetwork.get_route_table env.routeText).FindRoute host =
        some route →
      MacOSNetwork.ping_internal env route.Gateway false =
        PingOutcome.fail e →
      MacOSNetwork.ping_internal env host true =
        PingOutcome.fail "GatewayNotReachable") := by
  have hL := linux_ping_diag_eq env host hout herr
  have hM := macos_ping_diag_eq env host hout herr
  refine ⟨?_, ?_, ?_, ?_, ?_, ?_, ?_, ?_⟩
  · intro h0
    rw [hL]; simp [h0]
  · intro hne h0
    rw [hL]; simp [hne, h0]
  · intro hne hgw hnone
    rw [hL]; simp [hne, hgw, hnone]
  · intro route e hne hgw hsome hfail
    rw [hL]; simp [hne, hgw, hsome, hfail]
  · intro h0
    rw [hM]; simp [h0]
  · intro hne h0
    rw [hM]; simp [hne, h0]
  · intro hne hgw hnone
    rw [hM]; simp [hne, hgw, hnone]
  · intro route e hne hgw hsome hfail
    rw [hM]; simp [hne, hgw, hsome, hfail]

/-- C2 witness: with no ping output and an empty route table the
Linux diagnosis reports `NoLinkUp`. -/
theorem ping_diag_order_witness :
    strContains (diagEnvNoLink.pingStdout "8.8.8.8") "icmp_seq=" = false ∧
    diagEnvNoLink.pingStderr "8.8.8.8" = "" ∧
    LinuxNetwork.ping_internal diagEnvNoLink "8.8.8.8" true =
      PingOutcome.fail "NoLinkUp" := by
  refine ⟨by decide, rfl, ?_⟩
  exact (ping_diag_order diagEnvNoLink "8.8.8.8" (by decide) rfl).1 (by decide)

/-- C4 counterexample: in `gwOkEnv` the diagnosis reaches the nested
gateway probe, the probe succeeds with a 7 ms reply, and the outer
ping call returns the success `Ok(PingResult { duration: 0.0 })` —
not an error as the claim states. -/
theorem gateway_probe_success_counterexample :
    LinuxNetwork.ping_internal gwOkEnv "192.168.1.1" false =
      PingOutcome.ok (mkRat 7 1) ∧
    LinuxNetwork.ping_internal gwOkEnv "8.8.8.8" true =
      PingOutcome.ok 0 := by
  constructor <;> decide

/-- C4 amended: when the nested gateway probe (run with diagnostics
disabled) succeeds, the ping call falls through to `Ok(result)` with
the default duration 0.0 — a success result, not the original
failure; only a failed nested probe yields `GatewayNotReachable`.
Holds on both platforms. -/
theorem gateway_probe_outcome_amended (env : NetEnv) (host : String)
    (hout : strContains (env.pingStdout host) "icmp_seq=" = false)
    (herr : env.pingStderr host = "") :
    (∀ route d,
      ((LinuxNetwork.get_route_table env.routeText).Parse).nLinkUp ≠ 0 →
      ((LinuxNetwork.get_route_table env.routeText).Parse).nGatewayCount
          ≠ 0 →
      (LinuxNetwork.get_route_table env.routeText).FindRoute host =
        some route →
      LinuxNetwork.ping_internal env route.Gateway false =
        PingOutcome.ok d →
      LinuxNetwork.ping_internal env host true = PingOutcome.ok 0) ∧
    (∀ route e,
      ((LinuxNetwork.get_route_table env.routeText).Parse).nLinkUp ≠ 0 →
      ((LinuxNetwork.get_route_table env.routeText).Parse).nGatewayCount
          ≠ 0 →
      (LinuxNetwork.get_route_table env.routeText).FindRoute host =
        some route →
      LinuxNetwork.ping_internal env route.Gateway false =
        PingOutcome.fail e →
      LinuxNetwork.ping_internal env host true =
        PingOutcome.fail "GatewayNotReachable") ∧
    (∀ route d,
      ((MacOSNetwork.get_route_table env.routeText).Parse).nLinkUp ≠ 0 →
      ((MacOSNetwork.get_route_table env.routeText).Parse).nGatewayCount
          ≠ 0 →
      (MacOSNetwork.get_route_table env.routeText).FindRoute host =
        some route →
      MacOSNetwork.ping_internal env route.Gateway false =
        PingOutcome.ok d →
      MacOSNetwork.ping_internal env host true = PingOutcome.ok 0) ∧
    (∀ route e,
      ((MacOSNetwork.get_route_table env.routeText).Parse).nLinkUp ≠ 0 →
      ((MacOSNetwork.get_route_table env.routeText).Parse).nGatewayCount
          ≠ 0 →
      (MacOSNetwork.get_route_table env.routeText).FindRoute host =
        some route →
      MacOSNetwork.ping_internal env route.Gateway false =
        PingOutcome.fail e →
      MacOSNetwork.ping_internal env host true =
        PingOutcome.fail "GatewayNotReachable") := by
  have hL := linux_ping_diag_eq env host hout herr
  have hM := macos_ping_diag_eq env host hout herr
  refine ⟨?_, ?_, ?_, ?_⟩
  · intro route d hne hgw hsome hok
    rw [hL]; simp [hne, hgw, hsome, hok]
  · intro route e hne hgw hsome hfail
    rw [hL]; simp [hne, hgw, hsome, hfail]
  · intro route d hne hgw hsome hok
    rw [hM]; simp [hne, hgw, hsome, hok]
  · intro route e hne hgw hsome hfail
    rw [hM]; simp [hne, hgw, hsome, hfail]

/-- C4 amended witness: in `gwOkEnv` the successful gateway probe
makes the diagnostic ping return `ok 0`. -/
theorem gateway_probe_outcome_amended_witness :
    strContains (gwOkEnv.pingStdout "8.8.8.8") "icmp_seq=" = false ∧
    LinuxNetwork.ping_internal gwOkEnv "8.8.8.8" true =
      PingOutcome.ok 0 := by
  refine ⟨by decide, ?_⟩
  exact (gateway_probe_outcome_amended gwOkEnv "8.8.8.8" (by decide) rfl).1
    { Dest := "default", Dev := "eth0", Gateway := "192.168.1.1",
      Src := "", State := "" }
    (mkRat 7 1) (by decide) (by decide) (by decide) (by decide)

/-- C8 counterexample: stdout consisting of the bare token
`icmp_seq=` satisfies the claim's premise, yet the Linux ping panics
(`unwrap` on `"".parse::<f32>()`) instead of returning a success. -/
theorem ping_success_panics_counterexample :
    strContains (panicEnv.pingStdout "8.8.8.8") "icmp_seq=" = true ∧
    LinuxNetwork.ping_internal panicEnv "8.8.8.8" true =
      PingOutcome.panic := by
  constructor <;> decide

/-- C8 amended: when stdout contains `icmp_seq=` (the gate on both
platforms — macOS does not gate on `time=`), the Linux ping returns
success with the duration parsed from the second line's time field
and panics when that field fails to parse (it never returns an
error); the macOS ping always returns success, with the first
per-line `time=`/`ms` value or the default 0.0.  The duration is not
guaranteed non-negative. -/
theorem ping_success_branch_amended (env : NetEnv) (host : String)
    (diag : Bool)
    (hout : strContains (env.pingStdout host) "icmp_seq=" = true) :
    (∀ v, rustParseF32 (linuxTimeField (env.pingStdout host)) = some v →
      LinuxNetwork.ping_internal env host diag = PingOutcome.ok v) ∧
    (rustParseF32 (linuxTimeField (env.pingStdout host)) = none →
      LinuxNetwork.ping_internal env host diag = PingOutcome.panic) ∧
    MacOSNetwork.ping_internal env host diag =
      PingOutcome.ok
        ((macosFindTime (strSplitChar (env.pingStdout host) '\n')).getD 0)
    := by
  refine ⟨?_, ?_, ?_⟩
  · intro v hv
    cases diag <;>
      simp [LinuxNetwork.ping_internal, pingStepL, hout, hv]
  · intro hv
    cases diag <;>
      simp [LinuxNetwork.ping_internal, pingStepL, hout, hv]
  · cases diag <;>
      simp [MacOSNetwork.ping_internal, pingStepM, hout]

/-- C8 amended witness: a well-formed Linux reply gives a 7 ms
success. -/
theorem ping_success_branch_amended_witness :
    strContains (okEnv.pingStdout "8.8.8.8") "icmp_seq=" = true ∧
    LinuxNetwork.ping_internal okEnv "8.8.8.8" true =
      PingOutcome.ok (mkRat 7 1) := by
  refine ⟨by decide, ?_⟩
  exact (ping_success_branch_amended okEnv "8.8.8.8" true (by decide)).1
    (mkRat 7 1) (by decide)

/-- C9 counterexample: stderr `"ping: unknown host foo.bar"` is not
propagated verbatim by the Linux ping — the failure reason is
normalized to exactly `"ping: unknown host"`. -/
theorem stderr_verbatim_counterexample :
    unknownHostEnv.pingStderr "foo.bar" = "ping: unknown host foo.bar" ∧
    LinuxNetwork.ping_internal unknownHostEnv "foo.bar" true =
      PingOutcome.fail "ping: unknown host" ∧
    ("ping: unknown host" : String) ≠ "ping: unknown host foo.bar" := by
  refine ⟨rfl, by decide, by decide⟩

/-- C9 amended: with no success line and non-empty stderr the ping
fails; macOS propagates the stderr text verbatim, while Linux
propagates it verbatim except when it contains
`"ping: unknown host"`, in which case the reason is exactly
`"ping: unknown host"`. -/
theorem stderr_propagation_amended (env : NetEnv) (host : String)
    (diag : Bool)
    (hout : strContains (env.pingStdout host) "icmp_seq=" = false)
    (herr : env.pingStderr host ≠ "") :
    MacOSNetwork.ping_internal env host diag =
      PingOutcome.fail (env.pingStderr host) ∧
    LinuxNetwork.ping_internal env host diag =
      PingOutcome.fail
        (if strContains (env.pingStderr host) "ping: unknown host" then
          "ping: unknown host"
        else env.pingStderr host) := by
  constructor <;> cases diag <;>
    simp [MacOSNetwork.ping_internal, LinuxNetwork.ping_internal,
      pingStepM, pingStepL, hout, herr]

/-- C9 amended witness: macOS propagates the unknown-host stderr text
verbatim. -/
theorem stderr_propagation_amended_witness :
    unknownHostEnv.pingStderr "foo.bar" ≠ "" ∧
    MacOSNetwork.ping_internal unknownHostEnv "foo.bar" false =
      PingOutcome.fail "ping: unknown host foo.bar" := by
  refine ⟨by decide, ?_⟩
  exact (stderr_propagation_amended unknownHostEnv "foo.bar" false
    (by decide) (by decide)).1
